import Mathlib

/-!
# ProcessLib/Parameter/GroupBasedParameter.h

A shallow embedding of `ProcessLib::GroupBasedParameter<T, MeshItemType>`:
a parameter that maps a mesh item (cell or node) to an integer group index
through a borrowed property vector and returns the value row stored for that
group.

Conventions of the embedding.

* `std::size_t` values are natural numbers; the platform is taken to be LP64,
  so a conversion to `std::size_t` reduces modulo `2 ^ 64`.
* `int` values are integers in `[-2 ^ 31, 2 ^ 31)`; a `static_cast<int>` of a
  `std::size_t` reduces modulo `2 ^ 32` into that interval.
* The `operator[]` of `std::vector` is unchecked.  Inside the container it
  yields the element.  Outside it the behaviour is undefined: the read finds
  whatever the memory there holds, or faults.  That memory is not under the
  control of the program, so it is a part of `Memory` about which nothing is
  assumed.
* The reference member `_property_index` is an address into a memory of
  property vectors that the parameter does not own; it is dereferenced at every
  evaluation.
* The component type `T` is a type parameter: rows are only copied, never
  computed with.
* A `std::vector` is a list; where the length of the container matters for a
  wrapped index, the bound `vector_max_size` on it is stated as a hypothesis.
* `assert` is a checked assertion (a build without `NDEBUG`).  A build with
  `NDEBUG` has no such check and is not what is modelled here.
-/

namespace MeshLib

/-- Modelled from the spec: the enumeration `MeshLib::MeshItemType` is declared
outside this header; the two kinds for which `getMeshItemID` has an overload are
`Cell` and `Node` (any other kind does not compile). -/
inductive MeshItemType where
  | Node
  | Cell
  deriving DecidableEq, Repr

end MeshLib

namespace ProcessLib

/-- The C++ type `int`: an integer in `[-2 ^ 31, 2 ^ 31)`. -/
abbrev CInt : Type := { v : Int // -2147483648 ≤ v ∧ v < 2147483648 }

/-- The conversion `static_cast<int>(n)` of a `std::size_t`: reduction modulo
`2 ^ 32` into the range of `int`. -/
def toInt (n : Nat) : CInt :=
  ⟨((n : Int) + 2147483648) % 4294967296 - 2147483648, by omega⟩

/-- The implicit conversion of an `int` to `std::size_t` in `_vec_values[index]`:
reduction modulo `2 ^ 64`. -/
def toSizeT (i : CInt) : Nat :=
  (i.val % 18446744073709551616).toNat

/-- An `int` built from an integer literal (wrapping like a conversion to `int`). -/
def CInt.ofInt (v : Int) : CInt :=
  ⟨(v + 2147483648) % 4294967296 - 2147483648, by omega⟩

/-- Modelled from the spec: `SpatialPosition` is declared outside this header; it
holds an optional node id and an optional element id for the current evaluation
context. -/
structure SpatialPosition where
  _node_id : Option Nat
  _element_id : Option Nat
  deriving DecidableEq, Repr

/-- The accessor `SpatialPosition::getNodeID()`. -/
def SpatialPosition.getNodeID (pos : SpatialPosition) : Option Nat :=
  pos._node_id

/-- The accessor `SpatialPosition::getElementID()`. -/
def SpatialPosition.getElementID (pos : SpatialPosition) : Option Nat :=
  pos._element_id

/-- Modelled from the spec: `MeshLib::PropertyVector<int>` is declared outside
this header; it is an array-like mapping from mesh-item identifier to an integer
group id, one entry per mesh item. -/
abbrev PropertyVector : Type := List CInt

/-- The memory around the parameter.  `property` is the externally owned storage
of property vectors, by address: the parameter keeps an address into it, not a
copy of a vector.  The other two fields are what an unchecked read finds outside
a container: `beyondProperty a i` for the read of entry `i` past the end of the
property vector at address `a`, and `beyondValues n` for the read of row `n` past
the end of the value table; `none` stands for a read that faults. -/
structure Memory (T : Type) where
  property : Nat → PropertyVector
  beyondProperty : Nat → Nat → Option CInt
  beyondValues : Nat → Option (List T)

/-- The owner of the property vector at `address` assigns `g` to its entry `i`. -/
def Memory.assign {T : Type} (mem : Memory T) (address i : Nat) (g : CInt) : Memory T :=
  { mem with
    property := fun a => if a = address then (mem.property a).set i g else mem.property a }

/-- The unchecked `operator[]` of `std::vector`: the element at `n` when `n` is
inside the container `xs`, and otherwise what the memory outside it yields. -/
def unchecked {α : Type} (xs : List α) (beyond : Nat → Option α) (n : Nat) : Option α :=
  match xs[n]? with
  | some x => some x
  | none => beyond n

/-- The ways in which `operator()` ends without returning a value. -/
inductive Failure where
  /-- The check `assert(item_id)` does not hold. -/
  | assertion
  /-- The read `_property_index[item_id.get()]` is outside the property vector and
  faults. -/
  | propertyOutOfRange
  /-- The read `_vec_values[index]` is outside the value table and faults. -/
  | valuesOutOfRange
  /-- Modelled from the spec: `OGS_FATAL(fmt, args...)` is defined outside this
  header; it ends the run with a diagnostic formatted from `fmt` and `args`. -/
  | fatal (fmt : String) (args : List Int)
  deriving DecidableEq, Repr

/-- The object `GroupBasedParameter<T, MeshItemType>`.  The fields `name` and
`mesh` are those handed to the base `Parameter<T>(name_, &mesh)`; `mesh` and
`_property_index` are addresses of objects owned elsewhere. -/
structure GroupBasedParameter (T : Type) (MeshItemType : MeshLib.MeshItemType) where
  name : String
  mesh : Nat
  _property_index : Nat
  _vec_values : List (List T)

namespace GroupBasedParameter

variable {T : Type} {MeshItemType : MeshLib.MeshItemType}

/-- The constructor: stores the name, the address of the mesh, the address of the
property vector, and the value table moved in.  Nothing is checked. -/
def construct (T : Type) (MeshItemType : MeshLib.MeshItemType) (name_ : String) (mesh : Nat)
    (property : Nat) (vec_values : List (List T)) : GroupBasedParameter T MeshItemType :=
  { name := name_, mesh := mesh, _property_index := property, _vec_values := vec_values }

/-- The member `bool isTimeDependent() const`. -/
def isTimeDependent (_self : GroupBasedParameter T MeshItemType) : Bool :=
  false

/-- The member `int getNumberOfComponents() const`. -/
def getNumberOfComponents (self : GroupBasedParameter T MeshItemType) : CInt :=
  match self._vec_values with
  | [] => ⟨0, by decide⟩
  | front :: _ => toInt front.length

/-- The two overloads of `getMeshItemID(pos, type<ITEM_TYPE>)`, selected by the
template argument. -/
def getMeshItemID (pos : SpatialPosition) : MeshLib.MeshItemType → Option Nat
  | MeshLib.MeshItemType.Cell => pos.getElementID
  | MeshLib.MeshItemType.Node => pos.getNodeID

/-- The format string of the diagnostic for a group without data. -/
def noDataFormat : String := "No data found for the group index %d"

/-- The member `std::vector<T> operator()(double const t, SpatialPosition const& pos) const`. -/
def evaluate (self : GroupBasedParameter T MeshItemType) (mem : Memory T) (_t : Float)
    (pos : SpatialPosition) : Except Failure (List T) :=
  match getMeshItemID pos MeshItemType with
  | none => Except.error Failure.assertion
  | some item_id =>
    match unchecked (mem.property self._property_index)
        (mem.beyondProperty self._property_index) item_id with
    | none => Except.error Failure.propertyOutOfRange
    | some index =>
      match unchecked self._vec_values mem.beyondValues (toSizeT index) with
      | none => Except.error Failure.valuesOutOfRange
      | some values =>
        if values.isEmpty then
          Except.error (Failure.fatal noDataFormat [index.val])
        else
          Except.ok values

/-- The calls of the public contract: the two introspection queries and the
evaluation. -/
inductive Call where
  | isTimeDependent
  | getNumberOfComponents
  | evaluate (t : Float) (pos : SpatialPosition)

/-- What a call hands back to its caller. -/
inductive Reply (T : Type) where
  | bool (b : Bool)
  | int (n : CInt)
  | vector (r : Except Failure (List T))

/-- The parameter object together with the external memory it refers to. -/
structure State (T : Type) (MeshItemType : MeshLib.MeshItemType) where
  self : GroupBasedParameter T MeshItemType
  mem : Memory T

/-- One call on the object: the reply and the state afterwards.  All three
members are `const`, `_vec_values` is a `const` member and `_property_index` a
reference to `const`. -/
def call (s : State T MeshItemType) : Call → Reply T × State T MeshItemType
  | Call.isTimeDependent => (Reply.bool s.self.isTimeDependent, s)
  | Call.getNumberOfComponents => (Reply.int s.self.getNumberOfComponents, s)
  | Call.evaluate t pos => (Reply.vector (s.self.evaluate s.mem t pos), s)

/-- A sequence of calls, one after the other; the state after the last one. -/
def run (s : State T MeshItemType) : List Call → State T MeshItemType
  | [] => s
  | c :: cs => run (call s c).2 cs

end GroupBasedParameter

/-! ## Properties -/

namespace GroupBasedParameter

variable {T : Type} {MeshItemType : MeshLib.MeshItemType}

/-- A group id that is a valid row number converts to itself. -/
theorem toSizeT_of_nonneg (g : CInt) (h : 0 ≤ g.val) : toSizeT g = g.val.toNat := by
  have h2 := g.property.2
  unfold toSizeT
  rw [Int.emod_eq_of_lt h (by omega)]

/-- An unchecked read inside the container yields the element there. -/
theorem unchecked_of_getElem? {α : Type} (xs : List α) (beyond : Nat → Option α) (n : Nat)
    (x : α) (h : xs[n]? = some x) : unchecked xs beyond n = some x := by
  simp [unchecked, h]

/-- C1: for every index table, value table, time and position carrying item id `i`
of the parameter's kind, if `i` is in range of the index table, the group id
`g = I[i]` satisfies `0 ≤ g < length V` and the row `V[g]` is non-empty, then
`evaluate` succeeds and returns exactly that row. -/
theorem evaluate_returns_row (self : GroupBasedParameter T MeshItemType) (mem : Memory T)
    (t : Float) (pos : SpatialPosition) (i : Nat) (g : CInt) (row : List T)
    (hid : getMeshItemID pos MeshItemType = some i)
    (_hi : i < (mem.property self._property_index).length)
    (hg : (mem.property self._property_index)[i]? = some g)
    (h0 : 0 ≤ g.val) (_hlt : g.val < self._vec_values.length)
    (hrow : self._vec_values[g.val.toNat]? = some row) (hne : row ≠ []) :
    self.evaluate mem t pos = Except.ok row := by
  have hz := toSizeT_of_nonneg g h0
  cases row with
  | nil => exact absurd rfl hne
  | cons x xs => simp [evaluate, unchecked, hid, hg, hz, hrow]

/-- The examples of C1: a cell-kind parameter with index table `[0]` and value
table `[[3.5]]` gives `[3.5]` at cell 0; a node-kind parameter with index table
`[0, 1]` and value table `[[1.0, 2.0], [3.0, 4.0]]` gives `[3.0, 4.0]` at node 1
and `[1.0, 2.0]` at node 0. -/
theorem evaluate_returns_row_witness :
    (construct Float MeshLib.MeshItemType.Cell "k" 0 0 [[3.5]]).evaluate
        ⟨fun _ => [CInt.ofInt 0], fun _ _ => none, fun _ => none⟩
          0.0 ⟨none, some 0⟩ = Except.ok [3.5]
    ∧ (construct Float MeshLib.MeshItemType.Node "E" 0 0 [[1.0, 2.0], [3.0, 4.0]]).evaluate
        ⟨fun _ => [CInt.ofInt 0, CInt.ofInt 1], fun _ _ => none, fun _ => none⟩
          0.0 ⟨some 1, none⟩ = Except.ok [3.0, 4.0]
    ∧ (construct Float MeshLib.MeshItemType.Node "E" 0 0 [[1.0, 2.0], [3.0, 4.0]]).evaluate
        ⟨fun _ => [CInt.ofInt 0, CInt.ofInt 1], fun _ _ => none, fun _ => none⟩
          0.0 ⟨some 0, none⟩ = Except.ok [1.0, 2.0] :=
  ⟨evaluate_returns_row _ _ _ _ 0 (CInt.ofInt 0) [3.5] rfl (by decide) rfl (by decide)
      (by decide) rfl (by simp),
   evaluate_returns_row _ _ _ _ 1 (CInt.ofInt 1) [3.0, 4.0] rfl (by decide) rfl (by decide)
      (by decide) rfl (by simp),
   evaluate_returns_row _ _ _ _ 0 (CInt.ofInt 0) [1.0, 2.0] rfl (by decide) rfl (by decide)
      (by decide) rfl (by simp)⟩

/-- C2: for every parameter and position whose item id `i` is in range of the
index table and whose group id `g = I[i]` is in range of the value table,
`evaluate` fails with the fatal "no data" error exactly when the row `V[g]` is
empty; whenever it fails, the error is that one and carries exactly `g`, and then
no value is returned. -/
theorem evaluate_fatal_iff_empty (self : GroupBasedParameter T MeshItemType) (mem : Memory T)
    (t : Float) (pos : SpatialPosition) (i : Nat) (g : CInt) (row : List T)
    (hid : getMeshItemID pos MeshItemType = some i)
    (hg : (mem.property self._property_index)[i]? = some g)
    (h0 : 0 ≤ g.val)
    (hrow : self._vec_values[g.val.toNat]? = some row) :
    (self.evaluate mem t pos = Except.error (Failure.fatal noDataFormat [g.val]) ↔ row = [])
    ∧ (∀ e, self.evaluate mem t pos = Except.error e →
        e = Failure.fatal noDataFormat [g.val] ∧ row = [])
    ∧ (row = [] → ∀ v, self.evaluate mem t pos ≠ Except.ok v) := by
  have hz := toSizeT_of_nonneg g h0
  cases row with
  | nil => simp [evaluate, unchecked, hid, hg, hz, hrow]
  | cons x xs => simp [evaluate, unchecked, hid, hg, hz, hrow]

/-- An instance of C2: with index table `[1]` and value table `[[3.5], []]` the
evaluation at cell 0 fails with the "no data" error for group 1. -/
theorem evaluate_fatal_iff_empty_witness :
    ((construct Float MeshLib.MeshItemType.Cell "k" 0 0 [[3.5], []]).evaluate
        ⟨fun _ => [CInt.ofInt 1], fun _ _ => none, fun _ => none⟩ 0.0 ⟨none, some 0⟩
      = Except.error (Failure.fatal noDataFormat [1]) ↔ ([] : List Float) = [])
    ∧ (∀ e, (construct Float MeshLib.MeshItemType.Cell "k" 0 0 [[3.5], []]).evaluate
        ⟨fun _ => [CInt.ofInt 1], fun _ _ => none, fun _ => none⟩
          0.0 ⟨none, some 0⟩ = Except.error e →
        e = Failure.fatal noDataFormat [1] ∧ ([] : List Float) = [])
    ∧ (([] : List Float) = [] →
        ∀ v, (construct Float MeshLib.MeshItemType.Cell "k" 0 0 [[3.5], []]).evaluate
          ⟨fun _ => [CInt.ofInt 1], fun _ _ => none, fun _ => none⟩
            0.0 ⟨none, some 0⟩ ≠ Except.ok v) :=
  evaluate_fatal_iff_empty (construct Float MeshLib.MeshItemType.Cell "k" 0 0 [[3.5], []])
    ⟨fun _ => [CInt.ofInt 1], fun _ _ => none, fun _ => none⟩
      0.0 ⟨none, some 0⟩ 0 (CInt.ofInt 1) [] rfl rfl (by decide) rfl

/-- A count below `2 ^ 31` converts to `int` unchanged. -/
theorem toInt_of_lt (n : Nat) (h : n < 2147483648) : (toInt n).val = (n : Int) := by
  unfold toInt
  show ((n : Int) + 2147483648) % 4294967296 - 2147483648 = (n : Int)
  omega

/-- C3, as stated, fails: a value table whose only row has `2 ^ 31` components has
rows of equal positive width, and `getNumberOfComponents()` is `-2 ^ 31`, not
that width. -/
theorem getNumberOfComponents_wide_row :
    (∀ r ∈ [List.replicate 2147483648 (0.0 : Float)], r.length = 2147483648)
    ∧ ((construct Float MeshLib.MeshItemType.Cell "k" 0 0
          [List.replicate 2147483648 (0.0 : Float)]).getNumberOfComponents).val = -2147483648
    ∧ ((construct Float MeshLib.MeshItemType.Cell "k" 0 0
          [List.replicate 2147483648 (0.0 : Float)]).getNumberOfComponents).val
        ≠ (((List.replicate 2147483648 (0.0 : Float)).length : Nat) : Int) := by
  have hlen : (List.replicate 2147483648 (0.0 : Float)).length = 2147483648 :=
    List.length_replicate _ _
  have hval : ((construct Float MeshLib.MeshItemType.Cell "k" 0 0
      [List.replicate 2147483648 (0.0 : Float)]).getNumberOfComponents).val = -2147483648 := by
    show (toInt (List.replicate 2147483648 (0.0 : Float)).length).val = -2147483648
    rw [hlen]
    decide
  refine ⟨?_, hval, ?_⟩
  · intro r hr
    rw [List.mem_singleton] at hr
    rw [hr, hlen]
  · rw [hval, hlen]
    decide

/-- C3, amended: `getNumberOfComponents()` is 0 for an empty value table and
otherwise the length of the first row converted to `int`, which is that length
when it is below `2 ^ 31`; so for a non-empty table whose rows all have the same
positive width `w < 2 ^ 31` it is `w`. -/
theorem getNumberOfComponents_spec (self : GroupBasedParameter T MeshItemType) :
    (self._vec_values = [] → self.getNumberOfComponents.val = 0)
    ∧ (∀ front rest, self._vec_values = front :: rest →
        self.getNumberOfComponents = toInt front.length)
    ∧ (∀ front rest, self._vec_values = front :: rest → front.length < 2147483648 →
        self.getNumberOfComponents.val = (front.length : Int))
    ∧ (∀ w : Nat, 0 < w → w < 2147483648 → self._vec_values ≠ [] →
        (∀ r ∈ self._vec_values, r.length = w) →
        self.getNumberOfComponents.val = (w : Int)) := by
  refine ⟨?_, ?_, ?_, ?_⟩
  · intro h
    simp only [getNumberOfComponents, h]
  · intro front rest h
    simp only [getNumberOfComponents, h]
  · intro front rest h hlt
    simp only [getNumberOfComponents, h]
    exact toInt_of_lt _ hlt
  · intro w _ hlt hne hall
    cases hV : self._vec_values with
    | nil => exact absurd hV hne
    | cons front rest =>
      have hw : front.length = w := hall front (by rw [hV]; exact List.mem_cons_self _ _)
      simp only [getNumberOfComponents, hV]
      rw [hw]
      exact toInt_of_lt _ hlt

/-- An instance of amended C3: the table `[[1.0, 2.0], [3.0, 4.0]]` has 2
components. -/
theorem getNumberOfComponents_spec_witness :
    ((construct Float MeshLib.MeshItemType.Node "E" 0 0
        [[1.0, 2.0], [3.0, 4.0]]).getNumberOfComponents).val = 2 :=
  (getNumberOfComponents_spec
      (construct Float MeshLib.MeshItemType.Node "E" 0 0 [[1.0, 2.0], [3.0, 4.0]])).2.2.2
    2 (by decide) (by decide) (by simp [construct])
    (by
      intro r hr
      simp only [construct, List.mem_cons, List.mem_singleton, List.not_mem_nil, or_false] at hr
      rcases hr with h | h <;> rw [h] <;> rfl)

/-- C4: `isTimeDependent()` is false for every parameter, and `evaluate` has the
same outcome at any two times for the same position. -/
theorem evaluate_ignores_time (self : GroupBasedParameter T MeshItemType) (mem : Memory T)
    (pos : SpatialPosition) (t1 t2 : Float) :
    self.isTimeDependent = false ∧ self.evaluate mem t1 pos = self.evaluate mem t2 pos :=
  ⟨rfl, rfl⟩

/-- What `evaluate` does once the index read has yielded `g` and the row read has
yielded `row`. -/
theorem evaluate_of_reads (self : GroupBasedParameter T MeshItemType) (mem : Memory T)
    (t : Float) (pos : SpatialPosition) (i : Nat) (g : CInt) (row : List T)
    (hid : getMeshItemID pos MeshItemType = some i)
    (hg : unchecked (mem.property self._property_index)
      (mem.beyondProperty self._property_index) i = some g)
    (hrow : unchecked self._vec_values mem.beyondValues (toSizeT g) = some row) :
    (row ≠ [] → self.evaluate mem t pos = Except.ok row)
    ∧ (row = [] →
        self.evaluate mem t pos = Except.error (Failure.fatal noDataFormat [g.val])) := by
  cases row with
  | nil => simp [evaluate, hid, hg, hrow]
  | cons x xs => simp [evaluate, hid, hg, hrow]

/-- What `evaluate` does when both reads are inside their containers. -/
theorem evaluate_in_range (self : GroupBasedParameter T MeshItemType) (mem : Memory T)
    (t : Float) (pos : SpatialPosition) (i : Nat) (g : CInt) (row : List T)
    (hid : getMeshItemID pos MeshItemType = some i)
    (hg : (mem.property self._property_index)[i]? = some g)
    (h0 : 0 ≤ g.val)
    (hrow : self._vec_values[g.val.toNat]? = some row) :
    (row ≠ [] → self.evaluate mem t pos = Except.ok row)
    ∧ (row = [] →
        self.evaluate mem t pos = Except.error (Failure.fatal noDataFormat [g.val])) := by
  apply evaluate_of_reads self mem t pos i g row hid
  · exact unchecked_of_getElem? _ _ _ _ hg
  · rw [toSizeT_of_nonneg g h0]
    exact unchecked_of_getElem? _ _ _ _ hrow

/-- C5: the item id used for the lookup is chosen by the kind alone.  A cell-kind
parameter looks up with the position's element id: at a position with element id
`e` it returns the row `V[I[e]]` (or fails for want of data when that row is
empty), and its outcome is the same at two positions with the same element id,
whatever their node ids.  A node-kind parameter does the same with the node id,
whatever the element ids. -/
theorem evaluate_uses_id_of_kind (mem : Memory T) (t : Float) (pos1 pos2 : SpatialPosition) :
    (getMeshItemID pos1 MeshLib.MeshItemType.Cell = pos1.getElementID
      ∧ getMeshItemID pos1 MeshLib.MeshItemType.Node = pos1.getNodeID)
    ∧ (∀ self : GroupBasedParameter T MeshLib.MeshItemType.Cell,
        pos1.getElementID = pos2.getElementID →
        self.evaluate mem t pos1 = self.evaluate mem t pos2)
    ∧ (∀ self : GroupBasedParameter T MeshLib.MeshItemType.Node,
        pos1.getNodeID = pos2.getNodeID →
        self.evaluate mem t pos1 = self.evaluate mem t pos2)
    ∧ (∀ (self : GroupBasedParameter T MeshLib.MeshItemType.Cell) (e : Nat) (g : CInt)
        (row : List T),
        pos1.getElementID = some e →
        (mem.property self._property_index)[e]? = some g → 0 ≤ g.val →
        self._vec_values[g.val.toNat]? = some row →
        (row ≠ [] → self.evaluate mem t pos1 = Except.ok row)
        ∧ (row = [] →
            self.evaluate mem t pos1 = Except.error (Failure.fatal noDataFormat [g.val])))
    ∧ (∀ (self : GroupBasedParameter T MeshLib.MeshItemType.Node) (n : Nat) (g : CInt)
        (row : List T),
        pos1.getNodeID = some n →
        (mem.property self._property_index)[n]? = some g → 0 ≤ g.val →
        self._vec_values[g.val.toNat]? = some row →
        (row ≠ [] → self.evaluate mem t pos1 = Except.ok row)
        ∧ (row = [] →
            self.evaluate mem t pos1 = Except.error (Failure.fatal noDataFormat [g.val]))) := by
  refine ⟨⟨rfl, rfl⟩, ?_, ?_, ?_, ?_⟩
  · intro self h
    simp only [evaluate, getMeshItemID, h]
  · intro self h
    simp only [evaluate, getMeshItemID, h]
  · intro self e g row he hg h0 hrow
    have hz := toSizeT_of_nonneg g h0
    cases row with
    | nil => simp [evaluate, unchecked, getMeshItemID, he, hg, hz, hrow]
    | cons x xs => simp [evaluate, unchecked, getMeshItemID, he, hg, hz, hrow]
  · intro self n g row hn hg h0 hrow
    have hz := toSizeT_of_nonneg g h0
    cases row with
    | nil => simp [evaluate, unchecked, getMeshItemID, hn, hg, hz, hrow]
    | cons x xs => simp [evaluate, unchecked, getMeshItemID, hn, hg, hz, hrow]

/-- An instance of C5 over the index table `[0, 1]` and the value table
`[[1.0, 2.0], [3.0, 4.0]]`, at the position with node id 0 and element id 1: the
cell-kind parameter returns `[3.0, 4.0]`, the row of element 1, and the node-kind
parameter returns `[1.0, 2.0]`, the row of node 0; and the cell-kind parameter has
the same outcome at element 1 whether the position carries node 0 or no node. -/
theorem evaluate_uses_id_of_kind_witness :
    (construct Float MeshLib.MeshItemType.Cell "k" 0 0 [[1.0, 2.0], [3.0, 4.0]]).evaluate
        ⟨fun _ => [CInt.ofInt 0, CInt.ofInt 1], fun _ _ => none, fun _ => none⟩ 0.0
        ⟨some 0, some 1⟩ = Except.ok [3.0, 4.0]
    ∧ (construct Float MeshLib.MeshItemType.Node "E" 0 0 [[1.0, 2.0], [3.0, 4.0]]).evaluate
        ⟨fun _ => [CInt.ofInt 0, CInt.ofInt 1], fun _ _ => none, fun _ => none⟩ 0.0
        ⟨some 0, some 1⟩ = Except.ok [1.0, 2.0]
    ∧ (construct Float MeshLib.MeshItemType.Cell "k" 0 0 [[1.0, 2.0], [3.0, 4.0]]).evaluate
        ⟨fun _ => [CInt.ofInt 0, CInt.ofInt 1], fun _ _ => none, fun _ => none⟩ 0.0
        ⟨some 0, some 1⟩
      = (construct Float MeshLib.MeshItemType.Cell "k" 0 0 [[1.0, 2.0], [3.0, 4.0]]).evaluate
        ⟨fun _ => [CInt.ofInt 0, CInt.ofInt 1], fun _ _ => none, fun _ => none⟩ 0.0
        ⟨none, some 1⟩ :=
  ⟨((evaluate_uses_id_of_kind
        ⟨fun _ => [CInt.ofInt 0, CInt.ofInt 1], fun _ _ => none, fun _ => none⟩ 0.0
        ⟨some 0, some 1⟩ ⟨none, some 1⟩).2.2.2.1
      (construct Float MeshLib.MeshItemType.Cell "k" 0 0 [[1.0, 2.0], [3.0, 4.0]])
      1 (CInt.ofInt 1) [3.0, 4.0] rfl rfl (by decide) rfl).1 (by simp),
   ((evaluate_uses_id_of_kind
        ⟨fun _ => [CInt.ofInt 0, CInt.ofInt 1], fun _ _ => none, fun _ => none⟩ 0.0
        ⟨some 0, some 1⟩ ⟨none, some 1⟩).2.2.2.2
      (construct Float MeshLib.MeshItemType.Node "E" 0 0 [[1.0, 2.0], [3.0, 4.0]])
      0 (CInt.ofInt 0) [1.0, 2.0] rfl rfl (by decide) rfl).1 (by simp),
   (evaluate_uses_id_of_kind
        ⟨fun _ => [CInt.ofInt 0, CInt.ofInt 1], fun _ _ => none, fun _ => none⟩ 0.0
        ⟨some 0, some 1⟩ ⟨none, some 1⟩).2.1
      (construct Float MeshLib.MeshItemType.Cell "k" 0 0 [[1.0, 2.0], [3.0, 4.0]]) rfl⟩

/-- C6: the parameter reads the live external index table.  When the owner of
the table assigns group `g'` to item `i` after construction (`g'` a valid row
number with a non-empty row), the next `evaluate` at item `i` returns `V[g']`,
and the outcome at every position that does not carry item `i` is unchanged. -/
theorem evaluate_reads_live_table (name_ : String) (mesh address : Nat) (V : List (List T))
    (mem : Memory T) (t : Float) (pos : SpatialPosition) (i : Nat) (g' : CInt) (row : List T)
    (hid : getMeshItemID pos MeshItemType = some i)
    (hi : i < (mem.property address).length)
    (h0 : 0 ≤ g'.val) (_hlt : g'.val < V.length)
    (hrow : V[g'.val.toNat]? = some row) (hne : row ≠ []) :
    (construct T MeshItemType name_ mesh address V).evaluate (mem.assign address i g') t pos
        = Except.ok row
    ∧ (∀ pos', getMeshItemID pos' MeshItemType ≠ some i →
        (construct T MeshItemType name_ mesh address V).evaluate (mem.assign address i g') t pos'
          = (construct T MeshItemType name_ mesh address V).evaluate mem t pos') := by
  constructor
  · have hz := toSizeT_of_nonneg g' h0
    cases row with
    | nil => exact absurd rfl hne
    | cons x xs =>
      simp [evaluate, unchecked, construct, Memory.assign, List.getElem?_set, hid, hi, hz,
        hrow]
  · intro pos' hne'
    cases hj : getMeshItemID pos' MeshItemType with
    | none => simp [evaluate, hj]
    | some j =>
      have hji : i ≠ j := fun h => hne' (by rw [hj, h])
      simp [evaluate, unchecked, hj, construct, Memory.assign, List.getElem?_set, hji]

/-- An instance of C6: a node-kind parameter over the index table `[0, 1]` with
value table `[[1.0, 2.0], [3.0, 4.0]]`; after the owner assigns group 1 to node 0
the evaluation at node 0 returns `[3.0, 4.0]` and the one at node 1 is as before. -/
theorem evaluate_reads_live_table_witness :
    (construct Float MeshLib.MeshItemType.Node "E" 0 0 [[1.0, 2.0], [3.0, 4.0]]).evaluate
        (Memory.assign ⟨fun _ => [CInt.ofInt 0, CInt.ofInt 1], fun _ _ => none, fun _ => none⟩
          0 0 (CInt.ofInt 1)) 0.0
        ⟨some 0, none⟩ = Except.ok [3.0, 4.0]
    ∧ (∀ pos', getMeshItemID pos' MeshLib.MeshItemType.Node ≠ some 0 →
        (construct Float MeshLib.MeshItemType.Node "E" 0 0 [[1.0, 2.0], [3.0, 4.0]]).evaluate
          (Memory.assign ⟨fun _ => [CInt.ofInt 0, CInt.ofInt 1], fun _ _ => none, fun _ => none⟩
            0 0 (CInt.ofInt 1)) 0.0 pos'
        = (construct Float MeshLib.MeshItemType.Node "E" 0 0 [[1.0, 2.0], [3.0, 4.0]]).evaluate
          ⟨fun _ => [CInt.ofInt 0, CInt.ofInt 1], fun _ _ => none, fun _ => none⟩ 0.0 pos') :=
  evaluate_reads_live_table "E" 0 0 [[1.0, 2.0], [3.0, 4.0]]
    ⟨fun _ => [CInt.ofInt 0, CInt.ofInt 1], fun _ _ => none, fun _ => none⟩
      0.0 ⟨some 0, none⟩ 0 (CInt.ofInt 1) [3.0, 4.0]
    rfl (by decide) (by decide) (by decide) rfl (by simp)

/-- A vector returned by `evaluate` is non-empty. -/
theorem evaluate_ok_ne_nil (self : GroupBasedParameter T MeshItemType) (mem : Memory T)
    (t : Float) (pos : SpatialPosition) (v : List T)
    (h : self.evaluate mem t pos = Except.ok v) : v ≠ [] := by
  unfold evaluate at h
  split at h
  · cases h
  · split at h
    · cases h
    · split at h
      · cases h
      · split at h
        · cases h
        · rename_i hemp
          cases h
          intro hnil
          apply hemp
          rw [hnil]
          rfl

/-- C7, as stated, fails in three ways.  The table `[[], [1.0, 2.0]]` satisfies
the invariant (its non-empty rows have the same length), `evaluate` returns the
row `[1.0, 2.0]` of length 2 for group 1, and `getNumberOfComponents()` is 0.  The
table with one row of `2 ^ 31` components satisfies the invariant, `evaluate`
returns that row, and `getNumberOfComponents()` is `-2 ^ 31`.  The table `[[3.5]]`
satisfies the invariant and has 1 component, the index table `[1]` names a group
past its end, and where the memory there reads as `[1.0, 2.0]` the unchecked
lookup returns that vector of length 2. -/
theorem components_mismatch :
    ((∀ r ∈ [[], [(1.0 : Float), 2.0]], ∀ r' ∈ [[], [(1.0 : Float), 2.0]],
        r ≠ [] → r' ≠ [] → r.length = r'.length)
      ∧ (construct Float MeshLib.MeshItemType.Cell "k" 0 0 [[], [1.0, 2.0]]).evaluate
          ⟨fun _ => [CInt.ofInt 1], fun _ _ => none, fun _ => none⟩ 0.0 ⟨none, some 0⟩
          = Except.ok [1.0, 2.0]
      ∧ ((construct Float MeshLib.MeshItemType.Cell "k" 0 0
            [[], [1.0, 2.0]]).getNumberOfComponents).val = 0
      ∧ ((([1.0, 2.0] : List Float).length : Nat) : Int) ≠ 0)
    ∧ ((∀ r ∈ [List.replicate 2147483648 (0.0 : Float)],
          ∀ r' ∈ [List.replicate 2147483648 (0.0 : Float)],
          r ≠ [] → r' ≠ [] → r.length = r'.length)
      ∧ (construct Float MeshLib.MeshItemType.Cell "k" 0 0
            [List.replicate 2147483648 (0.0 : Float)]).evaluate
          ⟨fun _ => [CInt.ofInt 0], fun _ _ => none, fun _ => none⟩ 0.0 ⟨none, some 0⟩
          = Except.ok (List.replicate 2147483648 (0.0 : Float))
      ∧ ((construct Float MeshLib.MeshItemType.Cell "k" 0 0
            [List.replicate 2147483648 (0.0 : Float)]).getNumberOfComponents).val
          ≠ (((List.replicate 2147483648 (0.0 : Float)).length : Nat) : Int))
    ∧ ((∀ r ∈ [[(3.5 : Float)]], ∀ r' ∈ [[(3.5 : Float)]],
          r ≠ [] → r' ≠ [] → r.length = r'.length)
      ∧ (construct Float MeshLib.MeshItemType.Cell "k" 0 0 [[3.5]]).evaluate
          ⟨fun _ => [CInt.ofInt 1], fun _ _ => none,
            fun n => if n = 1 then some [1.0, 2.0] else none⟩ 0.0 ⟨none, some 0⟩
          = Except.ok [1.0, 2.0]
      ∧ ((construct Float MeshLib.MeshItemType.Cell "k" 0 0
            [[3.5]]).getNumberOfComponents).val = 1
      ∧ ((([1.0, 2.0] : List Float).length : Nat) : Int) ≠ 1) := by
  have hlen : (List.replicate 2147483648 (0.0 : Float)).length = 2147483648 :=
    List.length_replicate _ _
  refine ⟨⟨?_, rfl, by decide, by decide⟩, ⟨?_, ?_, ?_⟩, ?_, rfl, by decide, by decide⟩
  · intro r hr r' hr' hne hne'
    simp only [List.mem_cons, List.mem_singleton, List.not_mem_nil, or_false] at hr hr'
    rcases hr with h | h
    · exact absurd h hne
    · rcases hr' with h' | h'
      · exact absurd h' hne'
      · rw [h, h']
  · intro r hr r' hr' _ _
    rw [List.mem_singleton] at hr hr'
    rw [hr, hr']
  · have hsucc : List.replicate 2147483648 (0.0 : Float)
        = (0.0 : Float) :: List.replicate 2147483647 (0.0 : Float) :=
      List.replicate_succ _ 2147483647
    rw [hsucc]
    rfl
  · show (toInt (List.replicate 2147483648 (0.0 : Float)).length).val ≠ _
    rw [hlen]
    decide
  · intro r hr r' hr' _ _
    rw [List.mem_singleton] at hr hr'
    rw [hr, hr']

/-- C7, amended: for every value table that satisfies the invariant (all non-empty
rows have the same length) and whose first row is non-empty with fewer than
`2 ^ 31` components, every vector that a successful `evaluate` returns for an
item id inside the index table and a group id inside the value table has length
`getNumberOfComponents()`. -/
theorem evaluate_length_eq_components (self : GroupBasedParameter T MeshItemType)
    (mem : Memory T) (t : Float) (pos : SpatialPosition) (front : List T)
    (rest : List (List T)) (v : List T) (i : Nat) (g : CInt)
    (hinv : ∀ r ∈ self._vec_values, ∀ r' ∈ self._vec_values,
      r ≠ [] → r' ≠ [] → r.length = r'.length)
    (hV : self._vec_values = front :: rest) (hfront : front ≠ [])
    (hw : front.length < 2147483648)
    (hid : getMeshItemID pos MeshItemType = some i)
    (hg : (mem.property self._property_index)[i]? = some g)
    (h0 : 0 ≤ g.val) (hlt : g.val < self._vec_values.length)
    (hev : self.evaluate mem t pos = Except.ok v) :
    (self.getNumberOfComponents).val = (v.length : Int) := by
  have hne := evaluate_ok_ne_nil self mem t pos v hev
  have hn : g.val.toNat < self._vec_values.length := by omega
  have hrow : self._vec_values[g.val.toNat]? = some self._vec_values[g.val.toNat] :=
    List.getElem?_eq_getElem hn
  have hboth := evaluate_in_range self mem t pos i g _ hid hg h0 hrow
  have hv : self._vec_values[g.val.toNat] = v := by
    by_cases hnil : self._vec_values[g.val.toNat] = []
    · rw [hboth.2 hnil] at hev
      cases hev
    · rw [hboth.1 hnil] at hev
      cases hev
      rfl
  have hmem : v ∈ self._vec_values := by
    rw [← hv]
    exact List.getElem_mem hn
  have hfm : front ∈ self._vec_values := by rw [hV]; exact List.mem_cons_self _ _
  have hlen : front.length = v.length := hinv front hfm v hmem hfront hne
  simp only [getNumberOfComponents, hV]
  rw [← hlen]
  exact toInt_of_lt _ hw

/-- An instance of amended C7: the node-kind parameter with index table `[0, 1]`
and value table `[[1.0, 2.0], [3.0, 4.0]]` returns `[3.0, 4.0]` at node 1 and has
2 components. -/
theorem evaluate_length_eq_components_witness :
    ((construct Float MeshLib.MeshItemType.Node "E" 0 0
        [[1.0, 2.0], [3.0, 4.0]]).getNumberOfComponents).val
      = ((([3.0, 4.0] : List Float).length : Nat) : Int) :=
  evaluate_length_eq_components
    (construct Float MeshLib.MeshItemType.Node "E" 0 0 [[1.0, 2.0], [3.0, 4.0]])
    ⟨fun _ => [CInt.ofInt 0, CInt.ofInt 1], fun _ _ => none, fun _ => none⟩ 0.0
    ⟨some 1, none⟩ [1.0, 2.0] [[3.0, 4.0]] [3.0, 4.0] 1 (CInt.ofInt 1)
    (by
      intro r hr r' hr' _ _
      simp only [construct, List.mem_cons, List.mem_singleton, List.not_mem_nil, or_false]
        at hr hr'
      rcases hr with h | h <;> rcases hr' with h' | h' <;> rw [h, h'] <;> rfl)
    rfl (by simp) (by decide) rfl rfl (by decide) (by decide) rfl

/-- Any sequence of calls ends in the state it started from. -/
theorem run_eq (s : State T MeshItemType) (calls : List Call) : run s calls = s := by
  induction calls with
  | nil => rfl
  | cons c cs ih =>
    cases c <;> exact ih

/-- C8: the parameter is immutable after construction.  Each of
`isTimeDependent()`, `getNumberOfComponents()` and `evaluate` (failing or not)
leaves the value table and the index table as they were, and so does any sequence
of such calls.  After any such sequence the replies are those of the unchanged
tables: `isTimeDependent()` is false, `getNumberOfComponents()` is the width of
the first row (0 for an empty table), and `evaluate` at a position has the
outcome it had before, which for an item in range is the row `V[I[i]]`, or the
"no data" error when that row is empty. -/
theorem calls_leave_tables_unchanged (s : State T MeshItemType) (c : Call)
    (calls : List Call) (t : Float) (pos : SpatialPosition) :
    ((call s c).2.self._vec_values = s.self._vec_values
      ∧ (call s c).2.mem.property (call s c).2.self._property_index
          = s.mem.property s.self._property_index
      ∧ (call s c).2 = s)
    ∧ run s calls = s
    ∧ (call (run s calls) Call.isTimeDependent).1 = Reply.bool false
    ∧ (s.self._vec_values = [] →
        ∃ n, (call (run s calls) Call.getNumberOfComponents).1 = Reply.int n ∧ n.val = 0)
    ∧ (∀ front rest, s.self._vec_values = front :: rest →
        (call (run s calls) Call.getNumberOfComponents).1 = Reply.int (toInt front.length))
    ∧ (call (call s (Call.evaluate t pos)).2 (Call.evaluate t pos)).1
        = (call s (Call.evaluate t pos)).1
    ∧ (call (run s calls) (Call.evaluate t pos)).1 = (call s (Call.evaluate t pos)).1
    ∧ (∀ (i : Nat) (g : CInt) (row : List T),
        getMeshItemID pos MeshItemType = some i →
        (s.mem.property s.self._property_index)[i]? = some g → 0 ≤ g.val →
        s.self._vec_values[g.val.toNat]? = some row →
        (row ≠ [] →
          (call s (Call.evaluate t pos)).1 = Reply.vector (Except.ok row)
          ∧ (call (run s calls) (Call.evaluate t pos)).1 = Reply.vector (Except.ok row))
        ∧ (row = [] →
          (call s (Call.evaluate t pos)).1
            = Reply.vector (Except.error (Failure.fatal noDataFormat [g.val]))
          ∧ (call (run s calls) (Call.evaluate t pos)).1
            = Reply.vector (Except.error (Failure.fatal noDataFormat [g.val])))) := by
  have hc : (call s c).2 = s := by cases c <;> rfl
  have hr := run_eq s calls
  refine ⟨⟨?_, ?_, hc⟩, hr, ?_, ?_, ?_, rfl, ?_, ?_⟩
  · rw [hc]
  · rw [hc]
  · rw [hr]
    rfl
  · intro hV
    rw [hr]
    refine ⟨s.self.getNumberOfComponents, rfl, ?_⟩
    simp only [getNumberOfComponents, hV]
  · intro front rest hV
    rw [hr]
    show Reply.int s.self.getNumberOfComponents = _
    simp only [getNumberOfComponents, hV]
  · rw [hr]
  · intro i g row hid hg h0 hrow
    have hz := toSizeT_of_nonneg g h0
    rw [hr]
    constructor
    · intro hne
      have h1 : (call s (Call.evaluate t pos)).1 = Reply.vector (Except.ok row) := by
        show Reply.vector (s.self.evaluate s.mem t pos) = _
        cases row with
        | nil => exact absurd rfl hne
        | cons x xs => simp [evaluate, unchecked, hid, hg, hz, hrow]
      exact ⟨h1, h1⟩
    · intro hnil
      have h1 : (call s (Call.evaluate t pos)).1
          = Reply.vector (Except.error (Failure.fatal noDataFormat [g.val])) := by
        show Reply.vector (s.self.evaluate s.mem t pos) = _
        subst hnil
        simp [evaluate, unchecked, hid, hg, hz, hrow]
      exact ⟨h1, h1⟩

/-- An instance of C8: the node-kind parameter over the index table `[0, 1]` and
the value table `[[1.0, 2.0], [3.0, 4.0]]` replies `[3.0, 4.0]` at node 1, and
again after an evaluation at node 0, a query of the number of components, a query
of the time dependence and an evaluation at a position without node id. -/
theorem calls_leave_tables_unchanged_witness :
    (call
        (⟨construct Float MeshLib.MeshItemType.Node "E" 0 0 [[1.0, 2.0], [3.0, 4.0]],
          ⟨fun _ => [CInt.ofInt 0, CInt.ofInt 1], fun _ _ => none, fun _ => none⟩⟩ :
          State Float MeshLib.MeshItemType.Node)
        (Call.evaluate 0.0 ⟨some 1, none⟩)).1 = Reply.vector (Except.ok [3.0, 4.0])
    ∧ (call
        (run
          (⟨construct Float MeshLib.MeshItemType.Node "E" 0 0 [[1.0, 2.0], [3.0, 4.0]],
            ⟨fun _ => [CInt.ofInt 0, CInt.ofInt 1], fun _ _ => none, fun _ => none⟩⟩ :
            State Float MeshLib.MeshItemType.Node)
          [Call.evaluate 0.0 ⟨some 0, none⟩, Call.getNumberOfComponents,
            Call.isTimeDependent, Call.evaluate 1.0 ⟨none, some 0⟩])
        (Call.evaluate 0.0 ⟨some 1, none⟩)).1 = Reply.vector (Except.ok [3.0, 4.0]) :=
  ((calls_leave_tables_unchanged
      (⟨construct Float MeshLib.MeshItemType.Node "E" 0 0 [[1.0, 2.0], [3.0, 4.0]],
        ⟨fun _ => [CInt.ofInt 0, CInt.ofInt 1], fun _ _ => none, fun _ => none⟩⟩ :
        State Float MeshLib.MeshItemType.Node)
      Call.isTimeDependent
      [Call.evaluate 0.0 ⟨some 0, none⟩, Call.getNumberOfComponents,
        Call.isTimeDependent, Call.evaluate 1.0 ⟨none, some 0⟩]
      0.0 ⟨some 1, none⟩).2.2.2.2.2.2.2
    1 (CInt.ofInt 1) [3.0, 4.0] rfl rfl (by decide) rfl).1 (by simp)

/-- C9: construction checks nothing and defects surface lazily and locally.  The
constructor stores whatever tables it is given; the outcome of `evaluate` at item
`i` is the same for any two parameters of the same kind whose index reads at `i`
yield the same entry and whose row reads for that entry yield the same row,
whatever the other entries of either table are; and when the entry of item `i` is
a valid row number with a non-empty row, that row is returned. -/
theorem evaluate_is_local (name_ name' : String) (mesh mesh' address address' : Nat)
    (V V' : List (List T)) (mem mem' : Memory T) (t : Float) (pos : SpatialPosition) (i : Nat)
    (hid : getMeshItemID pos MeshItemType = some i)
    (hI : unchecked (mem.property address) (mem.beyondProperty address) i
      = unchecked (mem'.property address') (mem'.beyondProperty address') i)
    (hV : ∀ g, unchecked (mem.property address) (mem.beyondProperty address) i = some g →
      unchecked V mem.beyondValues (toSizeT g) = unchecked V' mem'.beyondValues (toSizeT g)) :
    ((construct T MeshItemType name_ mesh address V)._vec_values = V
      ∧ (construct T MeshItemType name_ mesh address V)._property_index = address)
    ∧ (construct T MeshItemType name_ mesh address V).evaluate mem t pos
        = (construct T MeshItemType name' mesh' address' V').evaluate mem' t pos
    ∧ (∀ g row, (mem.property address)[i]? = some g → 0 ≤ g.val →
        V[g.val.toNat]? = some row → row ≠ [] →
        (construct T MeshItemType name_ mesh address V).evaluate mem t pos = Except.ok row) := by
  refine ⟨⟨rfl, rfl⟩, ?_, ?_⟩
  · cases hg : unchecked (mem.property address) (mem.beyondProperty address) i with
    | none =>
      have hg' := hI.symm.trans hg
      simp [evaluate, construct, hid, hg, hg']
    | some g =>
      have hg' := hI.symm.trans hg
      have hrow := hV g hg
      simp [evaluate, construct, hid, hg, hg', hrow]
  · intro g row hg h0 hrow hne
    have hz := toSizeT_of_nonneg g h0
    cases row with
    | nil => exact absurd rfl hne
    | cons x xs => simp [evaluate, unchecked, construct, hid, hg, hz, hrow]

/-- An instance of C9: the index table `[0, 7]` names a group outside the value
table `[[3.5], []]`, which also has an empty row; the parameter is constructed all
the same, and at cell 0 it gives `[3.5]`, the outcome of the parameter with index
table `[0]` and value table `[[3.5]]`. -/
theorem evaluate_is_local_witness :
    ((construct Float MeshLib.MeshItemType.Cell "k" 0 0 [[3.5], []])._vec_values = [[3.5], []]
      ∧ (construct Float MeshLib.MeshItemType.Cell "k" 0 0 [[3.5], []])._property_index = 0)
    ∧ (construct Float MeshLib.MeshItemType.Cell "k" 0 0 [[3.5], []]).evaluate
          ⟨fun _ => [CInt.ofInt 0, CInt.ofInt 7], fun _ _ => none, fun _ => none⟩ 0.0
          ⟨none, some 0⟩
        = (construct Float MeshLib.MeshItemType.Cell "m" 1 1 [[3.5]]).evaluate
          ⟨fun _ => [CInt.ofInt 0], fun _ _ => none, fun _ => none⟩ 0.0 ⟨none, some 0⟩
    ∧ (∀ (g : CInt) (row : List Float),
        ([CInt.ofInt 0, CInt.ofInt 7] : PropertyVector)[0]? = some g → 0 ≤ g.val →
        ([[3.5], []] : List (List Float))[g.val.toNat]? = some row → row ≠ [] →
        (construct Float MeshLib.MeshItemType.Cell "k" 0 0 [[3.5], []]).evaluate
          ⟨fun _ => [CInt.ofInt 0, CInt.ofInt 7], fun _ _ => none, fun _ => none⟩ 0.0
          ⟨none, some 0⟩ = Except.ok row) :=
  evaluate_is_local "k" "m" 0 1 0 1 [[3.5], []] [[3.5]]
    ⟨fun _ => [CInt.ofInt 0, CInt.ofInt 7], fun _ _ => none, fun _ => none⟩
    ⟨fun _ => [CInt.ofInt 0], fun _ _ => none, fun _ => none⟩ 0.0 ⟨none, some 0⟩ 0
    rfl rfl
    (by
      intro g hg
      have hg0 : g = CInt.ofInt 0 := by
        have h : some (CInt.ofInt 0) = some g := hg
        exact (Option.some.inj h).symm
      rw [hg0]
      rfl)

/-- C10: the item-id assertion fires exactly when the id of the configured kind is
missing.  For a cell-kind parameter the evaluation at a position with no element
id fails the assertion, whether or not the position carries a node id, and at a
position with element id `e` the selector gives `e` and the assertion holds;
likewise for a node-kind parameter and the node id. -/
theorem assertion_iff_id_missing (mem : Memory T) (t : Float) (pos : SpatialPosition)
    (node element : Option Nat) (e n : Nat) :
    (∀ self : GroupBasedParameter T MeshItemType,
        self.evaluate mem t pos = Except.error Failure.assertion
          ↔ getMeshItemID pos MeshItemType = none)
    ∧ (∀ self : GroupBasedParameter T MeshLib.MeshItemType.Cell,
        (self.evaluate mem t pos = Except.error Failure.assertion ↔ pos.getElementID = none)
        ∧ self.evaluate mem t ⟨node, none⟩ = Except.error Failure.assertion
        ∧ getMeshItemID ⟨node, some e⟩ MeshLib.MeshItemType.Cell = some e
        ∧ self.evaluate mem t ⟨node, some e⟩ ≠ Except.error Failure.assertion)
    ∧ (∀ self : GroupBasedParameter T MeshLib.MeshItemType.Node,
        (self.evaluate mem t pos = Except.error Failure.assertion ↔ pos.getNodeID = none)
        ∧ self.evaluate mem t ⟨none, element⟩ = Except.error Failure.assertion
        ∧ getMeshItemID ⟨some n, element⟩ MeshLib.MeshItemType.Node = some n
        ∧ self.evaluate mem t ⟨some n, element⟩ ≠ Except.error Failure.assertion) := by
  have key : ∀ (K : MeshLib.MeshItemType) (self : GroupBasedParameter T K)
      (p : SpatialPosition),
      self.evaluate mem t p = Except.error Failure.assertion ↔ getMeshItemID p K = none := by
    intro K self p
    unfold evaluate
    cases getMeshItemID p K with
    | none => simp
    | some item_id =>
      simp only [reduceCtorEq, iff_false]
      split
      · simp
      · split
        · simp
        · split <;> simp
  refine ⟨fun self => key _ self pos, ?_, ?_⟩
  · intro self
    refine ⟨key _ self pos, (key _ self ⟨node, none⟩).2 rfl, rfl, ?_⟩
    intro h
    have := (key _ self ⟨node, some e⟩).1 h
    cases this
  · intro self
    refine ⟨key _ self pos, (key _ self ⟨none, element⟩).2 rfl, rfl, ?_⟩
    intro h
    have := (key _ self ⟨some n, element⟩).1 h
    cases this

/-- C12, as stated, fails: two cell-kind parameters named `"k"` and `"E"` over the
same tables, index table `[1]` and value table `[[3.5], []]`, fail at cell 0 with
one and the same diagnostic, whose only argument is the group index 1; the
diagnostic does not tell the two names apart. -/
theorem diagnostic_same_for_two_names :
    (construct Float MeshLib.MeshItemType.Cell "k" 0 0 [[3.5], []]).evaluate
        ⟨fun _ => [CInt.ofInt 1], fun _ _ => none, fun _ => none⟩ 0.0 ⟨none, some 0⟩
      = Except.error (Failure.fatal "No data found for the group index %d" [1])
    ∧ (construct Float MeshLib.MeshItemType.Cell "E" 0 0 [[3.5], []]).evaluate
        ⟨fun _ => [CInt.ofInt 1], fun _ _ => none, fun _ => none⟩ 0.0 ⟨none, some 0⟩
      = Except.error (Failure.fatal "No data found for the group index %d" [1])
    ∧ (construct Float MeshLib.MeshItemType.Cell "k" 0 0 [[3.5], []]).name
      ≠ (construct Float MeshLib.MeshItemType.Cell "E" 0 0 [[3.5], []]).name :=
  ⟨rfl, rfl, by decide⟩

/-- C12, amended: when `evaluate` finds that the resolved group has an empty value
row, the fatal diagnostic it produces is the fixed text "No data found for the
group index %d" with the offending group index as its only argument; the
parameter's name is not part of it, so a parameter with any other name over the
same tables produces the same diagnostic. -/
theorem diagnostic_carries_index_only (name_ name' : String) (mesh address : Nat)
    (V : List (List T)) (mem : Memory T) (t : Float) (pos : SpatialPosition) (i : Nat) (g : CInt)
    (hid : getMeshItemID pos MeshItemType = some i)
    (hg : (mem.property address)[i]? = some g)
    (h0 : 0 ≤ g.val)
    (hrow : V[g.val.toNat]? = some []) :
    (construct T MeshItemType name_ mesh address V).evaluate mem t pos
        = Except.error (Failure.fatal "No data found for the group index %d" [g.val])
    ∧ (construct T MeshItemType name' mesh address V).evaluate mem t pos
        = (construct T MeshItemType name_ mesh address V).evaluate mem t pos := by
  have hz := toSizeT_of_nonneg g h0
  constructor
  · simp [evaluate, unchecked, construct, noDataFormat, hid, hg, hz, hrow]
  · rfl

/-- An instance of amended C12: the parameter `"k"` with index table `[1]` and
value table `[[3.5], []]` fails at cell 0 with the diagnostic for group 1, and so
does the parameter `"E"` over the same tables. -/
theorem diagnostic_carries_index_only_witness :
    (construct Float MeshLib.MeshItemType.Cell "k" 0 0 [[3.5], []]).evaluate
        ⟨fun _ => [CInt.ofInt 1], fun _ _ => none, fun _ => none⟩ 0.0 ⟨none, some 0⟩
      = Except.error (Failure.fatal "No data found for the group index %d"
          [(CInt.ofInt 1).val])
    ∧ (construct Float MeshLib.MeshItemType.Cell "E" 0 0 [[3.5], []]).evaluate
        ⟨fun _ => [CInt.ofInt 1], fun _ _ => none, fun _ => none⟩ 0.0 ⟨none, some 0⟩
      = (construct Float MeshLib.MeshItemType.Cell "k" 0 0 [[3.5], []]).evaluate
        ⟨fun _ => [CInt.ofInt 1], fun _ _ => none, fun _ => none⟩ 0.0 ⟨none, some 0⟩ :=
  diagnostic_carries_index_only "k" "E" 0 0 [[3.5], []]
    ⟨fun _ => [CInt.ofInt 1], fun _ _ => none, fun _ => none⟩
    0.0
    ⟨none, some 0⟩ 0 (CInt.ofInt 1) rfl rfl (by decide) rfl

/-- C13: every vector returned by a successful `evaluate` is non-empty: it has at
least one component, whatever `getNumberOfComponents()` reports. -/
theorem evaluate_ok_nonempty (self : GroupBasedParameter T MeshItemType) (mem : Memory T)
    (t : Float) (pos : SpatialPosition) (v : List T)
    (h : self.evaluate mem t pos = Except.ok v) : v ≠ [] ∧ 1 ≤ v.length := by
  have hne := evaluate_ok_ne_nil self mem t pos v h
  exact ⟨hne, List.length_pos.mpr hne⟩

/-- An instance of C13: the vector `[1.0, 2.0]` returned for group 1 of the value
table `[[], [1.0, 2.0]]` is non-empty, while `getNumberOfComponents()` is 0. -/
theorem evaluate_ok_nonempty_witness :
    (construct Float MeshLib.MeshItemType.Cell "k" 0 0 [[], [1.0, 2.0]]).evaluate
        ⟨fun _ => [CInt.ofInt 1], fun _ _ => none, fun _ => none⟩ 0.0 ⟨none, some 0⟩
        = Except.ok [1.0, 2.0]
    ∧ ([1.0, 2.0] : List Float) ≠ [] ∧ 1 ≤ ([1.0, 2.0] : List Float).length :=
  ⟨rfl, evaluate_ok_nonempty
    (construct Float MeshLib.MeshItemType.Cell "k" 0 0 [[], [1.0, 2.0]])
    ⟨fun _ => [CInt.ofInt 1], fun _ _ => none, fun _ => none⟩ 0.0 ⟨none, some 0⟩
    [1.0, 2.0] rfl⟩

end GroupBasedParameter

end ProcessLib
